import Mathlib

/-!
Verification development for the AI finance tracker repository.

The data layer (`db_service.py`) is modelled as pure functions over an explicit
database state `DB` holding the rows of each table as lists.  SQLAlchemy
sessions are modelled by explicit state passing: a query is a list filter, a
delete removes rows, and `commit`/`rollback` are modelled where a claim needs
them (see `reset_user_data`).  Python floats used for monetary amounts are
modelled as rationals; nullable columns of rows already persisted are modelled
with the value present (every in-repo writer supplies all fields, see
`app.py`).  External services (hashlib digests, the OpenAI-backed `ai_agents`
calls) are modelled as function parameters; a call that can raise is a
parameter returning `Except`.
-/

namespace AFT

/-- Row of the `users` table (`db_models.User`, described in the spec data model). -/
structure User where
  id : String
  email : String
  password_hash : String
  name : String
deriving Repr, DecidableEq

/-- Row of the `transactions` table: (user_id, date, description, amount, type, category, notes). -/
structure Transaction where
  id : Nat
  user_id : String
  date : String
  description : String
  amount : ℚ
  type : String
  category : String
  notes : String
deriving Repr, DecidableEq

/-- Row of the `goals` table.  `create_goal` stores `None` for absent dict keys
(`goal_data.get(...)`), hence the `Option` fields; `current_amount` defaults to
`0.0` at creation and is therefore always present. -/
structure Goal where
  id : Nat
  user_id : String
  name : Option String
  target_amount : Option ℚ
  current_amount : ℚ
  deadline : Option String
  category : Option String
  notes : Option String
deriving Repr, DecidableEq

/-- Row of the `budgets` table. -/
structure Budget where
  id : Nat
  user_id : String
  category : String
  amount : ℚ
  period : String
  notes : String
deriving Repr, DecidableEq

/-- Row of the `financial_analyses` table. -/
structure FinancialAnalysis where
  id : Nat
  user_id : String
  analysis_type : String
  content : String
deriving Repr, DecidableEq

/-- Row of the `vector_transactions` table; `transaction_id` is the foreign key
used by the join in `reset_user_data`. -/
structure VectorTransaction where
  id : Nat
  transaction_id : Nat
deriving Repr, DecidableEq

/-- Row of the `user_settings` table (only its existence matters to the claims). -/
structure UserSetting where
  user_id : String
deriving Repr, DecidableEq

/-- The database state: one list of rows per table. -/
structure DB where
  users : List User
  transactions : List Transaction
  goals : List Goal
  budgets : List Budget
  analyses : List FinancialAnalysis
  vector_txns : List VectorTransaction
  settings : List UserSetting
deriving Repr, DecidableEq

/-- `db_service.create_user`: id is the MD5 hex digest of the email, the stored
`password_hash` is the SHA-256 hex digest of the password, and default settings
are created.  The two hashlib digests are external library calls, modelled as
function parameters. -/
def create_user (md5hex sha256hex : String → String) (db : DB)
    (email password name : String) : DB × User :=
  let user_id := md5hex email
  let password_hash := sha256hex password
  let user : User := { id := user_id, email := email, password_hash := password_hash, name := name }
  let db1 := { db with users := db.users ++ [user] }
  let db2 := { db1 with settings := db1.settings ++ [{ user_id := user_id }] }
  (db2, user)

/-- `db_service.verify_password`: hash the candidate password and compare with
the stored hash. -/
def verify_password (sha256hex : String → String) (stored_hash password : String) : Bool :=
  stored_hash == sha256hex password

/-- `db_service.get_transactions`: all transactions whose `user_id` matches. -/
def get_transactions (db : DB) (user_id : String) : List Transaction :=
  db.transactions.filter (fun t => t.user_id == user_id)

/-- The `transaction_data` dict passed to `create_transaction`.  All in-repo
callers (`app.py`) supply all six keys, so the fields are modelled as present. -/
structure TransactionData where
  date : String
  description : String
  amount : ℚ
  type : String
  category : String
  notes : String
deriving Repr, DecidableEq

/-- Fresh autoincrement primary key for the transactions table. -/
def nextTransactionId (db : DB) : Nat :=
  (db.transactions.map (·.id)).foldl max 0 + 1

/-- `db_service.create_transaction`: builds a `Transaction` row from the dict
values verbatim (no validation of any field) and commits it. -/
def create_transaction (db : DB) (user_id : String) (d : TransactionData) :
    DB × Transaction :=
  let t : Transaction :=
    { id := nextTransactionId db, user_id := user_id, date := d.date,
      description := d.description, amount := d.amount, type := d.type,
      category := d.category, notes := d.notes }
  ({ db with transactions := db.transactions ++ [t] }, t)

/-- The `goal_data` dict: `none` models an absent key. -/
structure GoalData where
  name : Option String := none
  target_amount : Option ℚ := none
  current_amount : Option ℚ := none
  deadline : Option String := none
  category : Option String := none
  notes : Option String := none
deriving Repr, DecidableEq

/-- Fresh autoincrement primary key for the goals table. -/
def nextGoalId (db : DB) : Nat :=
  (db.goals.map (·.id)).foldl max 0 + 1

/-- `db_service.create_goal`: stores each `goal_data.get(...)` value verbatim;
only `current_amount` has a default (`0.0`). -/
def create_goal (db : DB) (user_id : String) (gd : GoalData) : DB × Goal :=
  let g : Goal :=
    { id := nextGoalId db, user_id := user_id, name := gd.name,
      target_amount := gd.target_amount,
      current_amount := gd.current_amount.getD 0,
      deadline := gd.deadline, category := gd.category, notes := gd.notes }
  ({ db with goals := db.goals ++ [g] }, g)

/-- The field-update loop of `db_service.update_goal`: `setattr` for each key
present in the dict, leaving other fields unchanged. -/
def applyGoalData (g : Goal) (gd : GoalData) : Goal :=
  { g with
    name := if gd.name.isSome then gd.name else g.name,
    target_amount := if gd.target_amount.isSome then gd.target_amount else g.target_amount,
    current_amount := gd.current_amount.getD g.current_amount,
    deadline := if gd.deadline.isSome then gd.deadline else g.deadline,
    category := if gd.category.isSome then gd.category else g.category,
    notes := if gd.notes.isSome then gd.notes else g.notes }

/-- Replace (in place) the first goal row with the given primary key. -/
def replaceGoal : List Goal → Nat → Goal → List Goal
  | [], _, _ => []
  | g :: rest, gid, g2 => if g.id == gid then g2 :: rest else g :: replaceGoal rest gid g2

/-- `db_service.update_goal`: look up the goal by id (`None` when absent),
apply the dict updates and commit. -/
def update_goal (db : DB) (goal_id : Nat) (gd : GoalData) : DB × Option Goal :=
  match db.goals.find? (fun g => g.id == goal_id) with
  | none => (db, none)
  | some g =>
    let g2 := applyGoalData g gd
    ({ db with goals := replaceGoal db.goals goal_id g2 }, some g2)

/-- The transactions scanned by `check_budget_status`: the user's expense-type
transactions whose date string starts with the current month (`Transaction.date
LIKE "{current_month}%"` with `current_month = now().strftime("%Y-%m")`; the
month is a parameter of the model). -/
def monthlyExpenses (db : DB) (user_id month : String) : List Transaction :=
  db.transactions.filter
    (fun t => t.user_id == user_id && t.type == "expense" && t.date.startsWith month)

/-- One step of the `category_spending` dict-building loop:
`category_spending[category] += amount`, inserting the key with 0 first when
absent.  The dict is modelled as an association list in insertion order. -/
def bumpCat : List (String × ℚ) → String → ℚ → List (String × ℚ)
  | [], c, a => [(c, a)]
  | (k, v) :: rest, c, a =>
    if k == c then (k, v + a) :: rest else (k, v) :: bumpCat rest c a

/-- The `category_spending` dict after the loop over the month's expense
transactions. -/
def catSpendingMap (txns : List Transaction) : List (String × ℚ) :=
  txns.foldl (fun m t => bumpCat m t.category t.amount) []

/-- `category_spending.get(category, 0)`. -/
def catLookup (m : List (String × ℚ)) (c : String) : ℚ :=
  match m.find? (fun p => p.1 == c) with
  | some p => p.2
  | none => 0

/-- The `spent` value `check_budget_status` computes for one budget:
`total_spending` for the "All Categories" budget, otherwise
`category_spending.get(category, 0)`. -/
def budgetSpent (db : DB) (user_id month : String) (b : Budget) : ℚ :=
  let txns := monthlyExpenses db user_id month
  if b.category == "All Categories" then (txns.map (·.amount)).sum
  else catLookup (catSpendingMap txns) b.category

/-- `percent_used = (spent / amount) * 100 if amount > 0 else 0`. -/
def percentUsed (db : DB) (user_id month : String) (b : Budget) : ℚ :=
  if 0 < b.amount then budgetSpent db user_id month b / b.amount * 100 else 0

/-- A warning entry appended by `check_budget_status`. -/
structure BudgetWarning where
  budget : Budget
  spent : ℚ
  remaining : ℚ
  percent_used : ℚ
  severity : String
deriving Repr, DecidableEq

/-- `db_service.check_budget_status`: for each of the user's budgets, compute
`spent`, `remaining = max(0, amount - spent)` and `percent_used`; emit a
warning with severity `high` when `percent_used >= 100`, `medium` when
`>= 90`, `low` when `>= 75`, and skip the budget otherwise.  The Python builds
the spending dict once before the loop; `budgetSpent`/`percentUsed` recompute
the same pure values per budget. -/
def check_budget_status (db : DB) (user_id month : String) : List BudgetWarning :=
  (db.budgets.filter (fun b => b.user_id == user_id)).filterMap (fun b =>
    let spent := budgetSpent db user_id month b
    let remaining := max 0 (b.amount - spent)
    let pu := percentUsed db user_id month b
    if 100 ≤ pu then some ⟨b, spent, remaining, pu, "high"⟩
    else if 90 ≤ pu then some ⟨b, spent, remaining, pu, "medium"⟩
    else if 75 ≤ pu then some ⟨b, spent, remaining, pu, "low"⟩
    else none)

/-- The spent amount as the spec sentence describes it: the sum of the user's
expense-type transactions dated in the current month, over all categories for
an "All Categories" budget and over the budget's own category otherwise.
Stated from the claim's words, to be compared with `budgetSpent`. -/
def specSpent (db : DB) (user_id month : String) (b : Budget) : ℚ :=
  if b.category = "All Categories" then
    ((monthlyExpenses db user_id month).map (·.amount)).sum
  else
    (((monthlyExpenses db user_id month).filter
        (fun t => t.category = b.category)).map (·.amount)).sum

/-- Delete phase 1 of `reset_user_data`: the `VectorTransaction` rows joined to
a `Transaction` of the user (the join runs against the still-undeleted
transactions). -/
def delUserVectorTxns (db : DB) (user_id : String) : DB :=
  { db with vector_txns := db.vector_txns.filter (fun v =>
      !(db.transactions.any (fun t => t.id == v.transaction_id && t.user_id == user_id))) }

/-- Delete phase 2: the user's `FinancialAnalysis` rows. -/
def delUserAnalyses (db : DB) (user_id : String) : DB :=
  { db with analyses := db.analyses.filter (fun a => !(a.user_id == user_id)) }

/-- Delete phase 3: the user's `Transaction` rows. -/
def delUserTransactions (db : DB) (user_id : String) : DB :=
  { db with transactions := db.transactions.filter (fun t => !(t.user_id == user_id)) }

/-- Delete phase 4: the user's `Goal` rows. -/
def delUserGoals (db : DB) (user_id : String) : DB :=
  { db with goals := db.goals.filter (fun g => !(g.user_id == user_id)) }

/-- Delete phase 5: the user's `Budget` rows. -/
def delUserBudgets (db : DB) (user_id : String) : DB :=
  { db with budgets := db.budgets.filter (fun b => !(b.user_id == user_id)) }

/-- The five delete phases of `reset_user_data`, in program order. -/
def resetPhases (user_id : String) : List (DB → DB) :=
  [fun db => delUserVectorTxns db user_id,
   fun db => delUserAnalyses db user_id,
   fun db => delUserTransactions db user_id,
   fun db => delUserGoals db user_id,
   fun db => delUserBudgets db user_id]

/-- Run the numbered steps of `reset_user_data` on the session's working state.
`raiseAt = some k` is the fault model: the ORM raises an exception at step `k`
(steps 0-4 are the delete phases, step 5 is the final `commit`).  The result is
`ok` with the working state ready to commit, or `error` when an exception was
raised. -/
def runPhases (raiseAt : Option Nat) : Nat → List (DB → DB) → DB → Except Unit DB
  | k, [], w => if raiseAt == some k then .error () else .ok w
  | k, f :: rest, w => if raiseAt == some k then .error () else runPhases raiseAt (k + 1) rest (f w)

/-- `db_service.reset_user_data` with SQLAlchemy session semantics made
explicit: deletes act on a working copy of the state; `commit` publishes the
working copy and the function returns `True`; any exception triggers
`rollback`, which discards the working copy, leaving the database unchanged,
and the function returns `False`. -/
def reset_user_data (db : DB) (user_id : String) (raiseAt : Option Nat) : DB × Bool :=
  match runPhases raiseAt 0 (resetPhases user_id) db with
  | .ok w => (w, true)
  | .error _ => (db, false)

/-- A row deleted by `reset_user_data`, tagged by table. -/
inductive DeletedRow where
  | vtxn (v : VectorTransaction)
  | analysis (a : FinancialAnalysis)
  | txn (t : Transaction)
  | goal (g : Goal)
  | budget (b : Budget)
deriving Repr, DecidableEq

/-- Whether a trace entry is a `VectorTransaction` deletion. -/
def isVtxnRow : DeletedRow → Bool
  | .vtxn _ => true
  | _ => false

/-- Whether a trace entry is a `Transaction` deletion. -/
def isTxnRow : DeletedRow → Bool
  | .txn _ => true
  | _ => false

/-- The sequence of `db.delete(...)` calls issued by `reset_user_data` on the
happy path, in program order: vector transactions joined to the user's
transactions, then the user's analyses, transactions, goals and budgets. -/
def reset_delete_trace (db : DB) (user_id : String) : List DeletedRow :=
  (db.vector_txns.filter (fun v =>
      db.transactions.any (fun t => t.id == v.transaction_id && t.user_id == user_id))).map .vtxn
  ++ ((db.analyses.filter (fun a => a.user_id == user_id)).map .analysis
  ++ ((db.transactions.filter (fun t => t.user_id == user_id)).map .txn
  ++ ((db.goals.filter (fun g => g.user_id == user_id)).map .goal
  ++ (db.budgets.filter (fun b => b.user_id == user_id)).map .budget)))

/-- `FinanceAgent.categorize_transaction`: delegate to
`ai_agents.get_transaction_categorization` (an external LLM call, modelled as
an `Except`-valued parameter) and substitute the fallback category "Other" on
any exception. -/
def categorize_transaction (ai : String → Except String String)
    (description : String) : String :=
  match ai description with
  | .ok c => c
  | .error _ => "Other"

/-- A transaction dict as consumed by the prediction fallback (the fields of
`Transaction.to_dict()` that the algorithm reads). -/
structure TxnD where
  date : String
  description : String
  amount : ℚ
  category : String
  type : String
deriving Repr, DecidableEq

/-- Modelled from the spec: `db_models.Transaction.to_dict` is not under
`src/`; per the spec's data model it maps the ORM row to a dict of its
fields. -/
def toTxnD (t : Transaction) : TxnD :=
  { date := t.date, description := t.description, amount := t.amount,
    category := t.category, type := t.type }

/-- The grouping key of the prediction fallback:
`f"{description.lower()}-{category}-{type}"`.  Lowercasing is modelled for the
ASCII range (`Char.toLower`). -/
def txnKey (t : TxnD) : String :=
  t.description.toLower ++ "-" ++ t.category ++ "-" ++ t.type

/-- The keys of the `recurring` dict in insertion order (Python dicts preserve
the order in which keys were first inserted). -/
def firstOccKeys (txns : List TxnD) : List String :=
  txns.foldl (fun acc t => if txnKey t ∈ acc then acc else acc ++ [txnKey t]) []

/-- The `recurring[key]["transactions"]` list: the transactions grouped under
one key, in input order. -/
def keyGroup (txns : List TxnD) (k : String) : List TxnD :=
  txns.filter (fun t => txnKey t == k)

/-- A predicted transaction produced by the fallback. -/
structure Prediction where
  description : String
  category : String
  type : String
  amount : ℚ
  predicted_date : String
  confidence : ℚ
deriving Repr, DecidableEq

/-- Digits of a decimal numeral to a number (callers have checked
`Char.isDigit`). -/
def parseNatDigits (s : String) : Nat :=
  s.foldl (fun n c => n * 10 + (c.toNat - 48)) 0

/-- Gregorian leap year. -/
def isLeap (y : Nat) : Bool := y % 4 == 0 && (y % 100 != 0 || y % 400 == 0)

/-- Days in a month of the Gregorian calendar. -/
def daysInMonth (y m : Nat) : Nat :=
  if m == 2 then (if isLeap y then 29 else 28)
  else if m == 4 || m == 6 || m == 9 || m == 11 then 30
  else 31

/-- `datetime.datetime.strptime(date_str, "%Y-%m-%d")`: exactly a 4-digit
year, 1-2 digit month and 1-2 digit day separated by `-` with nothing left
over; the year is at least `MINYEAR = 1`, the month 1-12, and the day valid
for the month.  Returns the calendar date, or `none` for the `ValueError`
path. -/
def strptimeYmd (s : String) : Option (Nat × Nat × Nat) :=
  match s.splitOn "-" with
  | [ys, ms, ds] =>
    if ys.length == 4 && ys.all Char.isDigit
        && 1 ≤ ms.length && ms.length ≤ 2 && ms.all Char.isDigit
        && 1 ≤ ds.length && ds.length ≤ 2 && ds.all Char.isDigit then
      let y := parseNatDigits ys
      let m := parseNatDigits ms
      let d := parseNatDigits ds
      if 1 ≤ y && 1 ≤ m && m ≤ 12 && 1 ≤ d && d ≤ daysInMonth y m then
        some (y, m, d)
      else none
    else none
  | _ => none

/-- Serial day number of a Gregorian date (days since 0000-03-01, via the
standard civil-calendar algorithm); date differences and `timedelta` addition
are arithmetic on this serial number. -/
def toSerialDay (y m d : Nat) : Nat :=
  let yAdj := if m ≤ 2 then y - 1 else y
  let era := yAdj / 400
  let yoe := yAdj % 400
  let mp := if 2 < m then m - 3 else m + 9
  let doy := (153 * mp + 2) / 5 + d - 1
  let doe := yoe * 365 + yoe / 4 - yoe / 100 + doy
  era * 146097 + doe

/-- Inverse of `toSerialDay`: the Gregorian date of a serial day number. -/
def fromSerialDay (z : Nat) : Nat × Nat × Nat :=
  let era := z / 146097
  let doe := z % 146097
  let yoe := (doe - doe / 1460 + doe / 36524 - doe / 146096) / 365
  let doy := doe - (365 * yoe + yoe / 4 - yoe / 100)
  let mp := (5 * doy + 2) / 153
  let d := doy - (153 * mp + 2) / 5 + 1
  let m := if mp < 10 then mp + 3 else mp - 9
  (yoe + era * 400 + (if m ≤ 2 then 1 else 0), m, d)

/-- Zero-pad to two digits (`%m`, `%d`). -/
def pad2 (n : Nat) : String := if n < 10 then "0" ++ toString n else toString n

/-- Zero-pad to four digits (`%Y` as glibc strftime formats it). -/
def pad4 (n : Nat) : String :=
  if n < 10 then "000" ++ toString n
  else if n < 100 then "00" ++ toString n
  else if n < 1000 then "0" ++ toString n
  else toString n

/-- `strftime("%Y-%m-%d")` of a serial day number.  (Python's `datetime` would
raise `OverflowError` past year 9999; such dates are outside the modelled
range.) -/
def strftimeYmd (z : Nat) : String :=
  let ymd := fromSerialDay z
  pad4 ymd.1 ++ "-" ++ pad2 ymd.2.1 ++ "-" ++ pad2 ymd.2.2

/-- Comparison by date string, the sort key of `sorted(txns, key=...)`. -/
def dateLE (a b : TxnD) : Prop := a.date ≤ b.date

instance : DecidableRel dateLE := fun a b => inferInstanceAs (Decidable (a.date ≤ b.date))

instance : IsTotal TxnD dateLE := ⟨fun a b => le_total a.date b.date⟩

instance : IsTrans TxnD dateLE := ⟨fun _ _ _ h1 h2 => le_trans h1 h2⟩

/-- `sorted(txns, key=lambda x: x.get("date", ""))`: stable sort by the date
string. -/
def sortByDate (g : List TxnD) : List TxnD :=
  List.insertionSort dateLE g

/-- The `dates` list of the fallback loop: parse each date of the sorted group
with `strptime`, skipping the ones that raise, as serial day numbers. -/
def parsedDates (g : List TxnD) : List Nat :=
  (sortByDate g).filterMap (fun t =>
    (strptimeYmd t.date).map (fun ymd => toSerialDay ymd.1 ymd.2.1 ymd.2.2))

/-- `diffs = [(dates[i+1] - dates[i]).days for i in range(len(dates)-1)]`. -/
def consecDiffs : List Nat → List Int
  | a :: b :: rest => ((b : Int) - (a : Int)) :: consecDiffs (b :: rest)
  | _ => []

/-- `avg_diff = sum(diffs) / len(diffs)`. -/
def avgGap (dates : List Nat) : ℚ :=
  (((consecDiffs dates).sum : Int) : ℚ) / ((consecDiffs dates).length : ℚ)

/-- One iteration of the fallback's per-group loop: `none` when the group is
skipped, otherwise the appended prediction.  The group's `description`,
`category` and `type` are the ones stored in the `recurring` dict when its key
was first created, i.e. those of the group's first transaction in input
order. -/
def groupPrediction (today : Nat) (g : List TxnD) : Option Prediction :=
  match g with
  | [] => none
  | t0 :: _ =>
    if 2 ≤ g.length then
      let sorted := sortByDate g
      let avg_amount := ((sorted.map (·.amount)).sum) / ((sorted.map (·.amount)).length : ℚ)
      let dates := parsedDates g
      if 2 ≤ dates.length then
        if 25 ≤ avgGap dates ∧ avgGap dates ≤ 35 then
          let next_date := dates.getLastD 0 + 30
          if today < next_date then
            some { description := t0.description, category := t0.category,
                   type := t0.type, amount := avg_amount,
                   predicted_date := strftimeYmd next_date, confidence := 6/10 }
          else none
        else none
      else none
    else none

/-- Comparison by predicted date string, the key of the final
`sorted(predictions, key=...)`. -/
def predLE (a b : Prediction) : Prop := a.predicted_date ≤ b.predicted_date

instance : DecidableRel predLE := fun a b =>
  inferInstanceAs (Decidable (a.predicted_date ≤ b.predicted_date))

instance : IsTotal Prediction predLE := ⟨fun a b => le_total a.predicted_date b.predicted_date⟩

instance : IsTrans Prediction predLE := ⟨fun _ _ _ h1 h2 => le_trans h1 h2⟩

/-- The rule-based fallback of `FinanceAgent.predict_transactions`: group the
transactions by `txnKey`, keep groups occurring at least twice, predict the
next occurrence of each qualifying group, and return the predictions sorted
ascending by `predicted_date`. -/
def predictFallback (today : Nat) (txns : List TxnD) : List Prediction :=
  let preds := (firstOccKeys txns).filterMap
    (fun k => groupPrediction today (keyGroup txns k))
  List.insertionSort predLE preds

/-- The `txn_dicts` list of `FinanceAgent` methods:
`[t.to_dict() for t in db.get_transactions(user_id)]`. -/
def userTxnDicts (db : DB) (user_id : String) : List TxnD :=
  (get_transactions db user_id).map toTxnD

/-- `FinanceAgent.predict_transactions`: empty when no (truthy) user is set;
otherwise try `ai_agents.get_transaction_predictions` (external LLM call,
modelled as an `Except`-valued parameter) on the user's transactions, and run
the rule-based fallback when it raises.  `today` is
`datetime.datetime.now()` at day granularity (a serial day number; comparing
the predicted midnight datetime against `now()` with `>` coincides with the
strict comparison of their dates). -/
def predict_transactions (db : DB) (user_id : Option String)
    (ai : List TxnD → Except String (List Prediction)) (today : Nat) :
    List Prediction :=
  match user_id with
  | none => []
  | some uid =>
    if uid.isEmpty then []
    else
      match ai (userTxnDicts db uid) with
      | .ok ps => ps
      | .error _ => predictFallback today (userTxnDicts db uid)

/-- An empty database state, used as a concrete starting point. -/
def emptyDB : DB :=
  { users := [], transactions := [], goals := [], budgets := [],
    analyses := [], vector_txns := [], settings := [] }

/-- Concrete state for exercising `check_budget_status`: one user budget of
100 for "Food" and one May-2024 expense of 80 in that category. -/
def wdbBudget : DB :=
  { emptyDB with
    transactions := [⟨1, "u", "2024-05-02", "groceries", 80, "expense", "Food", ""⟩],
    budgets := [⟨1, "u", "Food", 100, "monthly", ""⟩] }

/-- The warning `check_budget_status` emits on `wdbBudget` (80 percent used). -/
def wWarning : BudgetWarning :=
  ⟨⟨1, "u", "Food", 100, "monthly", ""⟩, 80, 20, 80, "low"⟩

/-- A budget with a non-positive amount, for the guarded-division case. -/
def zeroBudget : Budget := ⟨2, "u", "Stuff", 0, "monthly", ""⟩

/-- Concrete state with one goal (id 1, current 50, no target). -/
def wdbGoal : DB :=
  { emptyDB with goals := [⟨1, "u", none, none, 50, none, none, none⟩] }

/-- Goal data whose `current_amount` (500) exceeds its `target_amount` (100). -/
def wGoalData : GoalData := { target_amount := some 100, current_amount := some 500 }

/-- The goal row after `update_goal wdbGoal 1 wGoalData`. -/
def wUpdatedGoal : Goal := ⟨1, "u", none, some 100, 500, none, none, none⟩

/-- Transaction data carrying a type outside {income, expense}. -/
def cexTxnData : TransactionData :=
  { date := "2024-05-02", description := "move to savings", amount := 25,
    type := "transfer", category := "Other", notes := "" }

/-- Transaction data with a well-formed type. -/
def wTxnData : TransactionData :=
  { date := "2024-05-03", description := "salary", amount := 1000,
    type := "income", category := "Income", notes := "" }

/-- Concrete state for `reset_user_data`: user "u" owns a transaction (with a
vector row), an analysis, a goal and a budget; user "v" owns a transaction
with a vector row that must survive. -/
def wdbReset : DB :=
  { emptyDB with
    transactions := [⟨1, "u", "2024-01-01", "x", 5, "expense", "Food", ""⟩,
                     ⟨2, "v", "2024-01-02", "y", 6, "income", "Pay", ""⟩],
    goals := [⟨1, "u", none, none, 0, none, none, none⟩],
    budgets := [⟨1, "u", "Food", 100, "monthly", ""⟩],
    analyses := [⟨1, "u", "insight", "c"⟩],
    vector_txns := [⟨1, 1⟩, ⟨2, 2⟩] }

/-- A prediction-API stand-in that raises (e.g. a rate-limit error). -/
def wFailAI : List TxnD → Except String (List Prediction) :=
  fun _ => .error "RateLimitError"

/-- Two transactions of user "u" with DIFFERENT descriptions and categories
("a-b"/"c" versus "a"/"b-c") that nevertheless build the same grouping key
"a-b-c-expense", 30 days apart. -/
def cexDB : DB :=
  { emptyDB with
    transactions := [⟨1, "u", "2024-01-01", "a-b", 10, "expense", "c", ""⟩,
                     ⟨2, "u", "2024-01-31", "a", 20, "expense", "b-c", ""⟩] }

/-- A genuinely recurring pair of transactions (same description, category and
type, 30 days apart). -/
def wdbPred : DB :=
  { emptyDB with
    transactions := [⟨1, "u", "2024-01-03", "netflix", 15, "expense", "Entertainment", ""⟩,
                     ⟨2, "u", "2024-02-02", "netflix", 15, "expense", "Entertainment", ""⟩] }

/-- The prediction the fallback produces on `wdbPred`. -/
def wPrediction : Prediction :=
  { description := "netflix", category := "Entertainment", type := "expense",
    amount := 15, predicted_date := "2024-03-03", confidence := 6/10 }

/-! ## Theorems -/

/-- Claim C5: for every description input, if the external categorization call
raises any exception, `categorize_transaction` returns the canned fallback
string "Other" and does not propagate the exception. -/
theorem C5_categorize_fallback_other
    (ai : String → Except String String) (description e : String)
    (h : ai description = .error e) :
    categorize_transaction ai description = "Other" := by
  unfold categorize_transaction
  rw [h]

/-- Witness for C5 at a concrete raising call. -/
theorem C5_categorize_fallback_other_witness :
    categorize_transaction (fun _ => .error "insufficient_quota") "Starbucks coffee"
      = "Other" :=
  C5_categorize_fallback_other (fun _ => .error "insufficient_quota")
    "Starbucks coffee" "insufficient_quota" rfl

/-- Claim C7: `create_transaction user_id data` stores the transaction with
that `user_id` (appending it to the table), and `get_transactions u` returns
all and only the transactions whose `user_id` equals `u`. -/
theorem C7_transactions_tied_to_user (db : DB) (uid u : String)
    (d : TransactionData) (t : Transaction) :
    (create_transaction db uid d).2.user_id = uid
    ∧ (create_transaction db uid d).1.transactions
        = db.transactions ++ [(create_transaction db uid d).2]
    ∧ (t ∈ get_transactions db u ↔ t ∈ db.transactions ∧ t.user_id = u) := by
  refine ⟨rfl, rfl, ?_⟩
  simp [get_transactions, List.mem_filter]

/-- Claim C10: `create_user` stores `password_hash` as the digest of the
password (the hashlib SHA-256 hex digest, modelled as the `sha256hex`
parameter), so `verify_password` accepts the original password; and
`verify_password h p` returns true iff `h` equals the digest of `p`. -/
theorem C10_password_roundtrip (md5hex sha256hex : String → String) (db : DB)
    (email pw name h p : String) :
    (create_user md5hex sha256hex db email pw name).2.password_hash = sha256hex pw
    ∧ verify_password sha256hex
        (create_user md5hex sha256hex db email pw name).2.password_hash pw = true
    ∧ (verify_password sha256hex h p = true ↔ h = sha256hex p) := by
  refine ⟨rfl, ?_, ?_⟩ <;> simp [verify_password, create_user]

/-- Claim C2: `create_goal` and `update_goal` store `current_amount` exactly
as supplied (with the supplied `target_amount` stored verbatim as well), even
when it exceeds `target_amount`: the data layer never clamps. -/
theorem C2_current_amount_not_clamped (db : DB) (uid : String) (gid : Nat)
    (gd : GoalData) (v : ℚ) (g2 : Goal)
    (hv : gd.current_amount = some v)
    (h2 : (update_goal db gid gd).2 = some g2) :
    (create_goal db uid gd).2.current_amount = v
    ∧ (create_goal db uid gd).2.target_amount = gd.target_amount
    ∧ g2.current_amount = v := by
  refine ⟨by simp [create_goal, hv], rfl, ?_⟩
  unfold update_goal at h2
  rcases hfind : db.goals.find? (fun g => g.id == gid) with _ | g
  · rw [hfind] at h2
    simp at h2
  · rw [hfind] at h2
    simp only [Option.some.injEq] at h2
    subst h2
    simp [applyGoalData, hv]

/-- Witness for C2: `current_amount = 500` is stored although
`target_amount = 100`, both at creation and on update. -/
theorem C2_current_amount_not_clamped_witness :
    (create_goal wdbGoal "u" wGoalData).2.current_amount = 500
    ∧ (create_goal wdbGoal "u" wGoalData).2.target_amount = some 100
    ∧ wUpdatedGoal.current_amount = 500 :=
  C2_current_amount_not_clamped wdbGoal "u" 1 wGoalData 500 wUpdatedGoal rfl (by decide)

/-- Counterexample to claim C6 as stated: `create_transaction` performs no
validation, so a transaction whose type is "transfer" is stored verbatim; the
stored row's type is neither "income" nor "expense". -/
theorem C6_counterexample :
    (create_transaction emptyDB "u" cexTxnData).2
        ∈ (create_transaction emptyDB "u" cexTxnData).1.transactions
    ∧ (create_transaction emptyDB "u" cexTxnData).2.type ≠ "income"
    ∧ (create_transaction emptyDB "u" cexTxnData).2.type ≠ "expense" := by
  refine ⟨by decide, by decide, by decide⟩

/-- Claim C6 (amended): `create_transaction` stores the supplied `type` field
verbatim, without validation; a stored transaction's type is in
{income, expense} exactly when the caller supplied such a type (as the
repository's two call sites do). -/
theorem C6_type_stored_verbatim (db : DB) (uid : String) (d : TransactionData) :
    (create_transaction db uid d).2.type = d.type
    ∧ (create_transaction db uid d).2
        ∈ (create_transaction db uid d).1.transactions
    ∧ (d.type = "income" ∨ d.type = "expense" →
        (create_transaction db uid d).2.type = "income"
        ∨ (create_transaction db uid d).2.type = "expense") := by
  refine ⟨rfl, ?_, fun h => h⟩
  simp [create_transaction]

/-- Witness for C6 (amended) at a concrete income transaction. -/
theorem C6_type_stored_verbatim_witness :
    (create_transaction emptyDB "u" wTxnData).2.type = "income"
    ∨ (create_transaction emptyDB "u" wTxnData).2.type = "expense" :=
  (C6_type_stored_verbatim emptyDB "u" wTxnData).2.2 (Or.inl rfl)

theorem catLookup_cons (k : String) (v : ℚ) (rest : List (String × ℚ)) (c : String) :
    catLookup ((k, v) :: rest) c = if k == c then v else catLookup rest c := by
  by_cases h : k = c
  · subst h
    simp [catLookup, List.find?]
  · have hb : (k == c) = false := by
      simpa using h
    simp [catLookup, List.find?, hb]

theorem catLookup_bumpCat (m : List (String × ℚ)) (cat c : String) (a : ℚ) :
    catLookup (bumpCat m cat a) c = catLookup m c + if cat = c then a else 0 := by
  induction m with
  | nil =>
    by_cases h : cat = c <;>
      simp [bumpCat, catLookup_cons, catLookup, h]
  | cons p rest ih =>
    obtain ⟨k, v⟩ := p
    unfold bumpCat
    by_cases hkcat : k = cat
    · subst hkcat
      rw [if_pos (by simp)]
      rw [catLookup_cons, catLookup_cons]
      by_cases hkc : k = c
      · subst hkc
        simp
      · simp [hkc, show k ≠ c from hkc]
    · rw [if_neg (by simp [hkcat])]
      rw [catLookup_cons, catLookup_cons]
      by_cases hkc : k = c
      · have hcatc : cat ≠ c := fun hc => hkcat (hkc.trans hc.symm)
        simp [hkc, hcatc]
      · simp [hkc, ih]

theorem catLookup_foldl (txns : List Transaction) (m : List (String × ℚ)) (c : String) :
    catLookup (txns.foldl (fun m t => bumpCat m t.category t.amount) m) c
      = catLookup m c + ((txns.filter (fun t => t.category = c)).map (·.amount)).sum := by
  induction txns generalizing m with
  | nil => simp
  | cons t rest ih =>
    rw [List.foldl_cons, ih, catLookup_bumpCat, List.filter_cons]
    by_cases h : t.category = c
    · rw [if_pos h, if_pos (by simp [h])]
      simp only [List.map_cons, List.sum_cons]
      ring
    · rw [if_neg h, if_neg (by simp [h])]
      ring

/-- The per-budget `spent` of the code (dict build + lookup) equals the
filtered sum that the spec sentence describes. -/
theorem budgetSpent_eq_specSpent (db : DB) (uid month : String) (b : Budget) :
    budgetSpent db uid month b = specSpent db uid month b := by
  unfold budgetSpent specSpent catSpendingMap
  by_cases h : b.category = "All Categories"
  · simp [h]
  · simp only [h, if_false, beq_iff_eq]
    rw [catLookup_foldl]
    simp [catLookup]

/-- Claim C1: every warning of `check_budget_status` reports as `spent` the
sum of the user's current-month expense transactions (all categories for an
"All Categories" budget, the budget's own category otherwise) and as
`remaining` the value `max 0 (amount - spent)`. -/
theorem C1_budget_spent_correct (db : DB) (uid month : String) :
    ∀ w ∈ check_budget_status db uid month,
      w.spent = specSpent db uid month w.budget
      ∧ w.remaining = max 0 (w.budget.amount - w.spent) := by
  intro w hw
  unfold check_budget_status at hw
  obtain ⟨b, hb, hsome⟩ := List.mem_filterMap.1 hw
  dsimp only at hsome
  split_ifs at hsome with h1 h2 h3 <;>
    simp only [Option.some.injEq] at hsome <;>
    subst hsome <;>
    exact ⟨budgetSpent_eq_specSpent db uid month b, rfl⟩

/-- Witness for C1 at a concrete state (budget 100, monthly spending 80). -/
theorem C1_budget_spent_correct_witness :
    wWarning.spent = specSpent wdbBudget "u" "2024-05" wWarning.budget
    ∧ wWarning.remaining = max 0 (wWarning.budget.amount - wWarning.spent) :=
  C1_budget_spent_correct wdbBudget "u" "2024-05" wWarning (by
    with_unfolding_all decide)

theorem percentUsed_nonpos (db : DB) (uid month : String) (b : Budget)
    (h : ¬ 0 < b.amount) : percentUsed db uid month b = 0 := by
  unfold percentUsed
  rw [if_neg h]

/-- Characterization of membership in the warning list: a warning comes from a
user budget with `percent_used` at least 75, and its fields are the computed
spent/remaining/percent values with the threshold-determined severity. -/
theorem mem_check_budget_status (db : DB) (uid month : String) (w : BudgetWarning) :
    w ∈ check_budget_status db uid month ↔
      ∃ b, b ∈ db.budgets.filter (fun b => b.user_id == uid)
        ∧ 75 ≤ percentUsed db uid month b
        ∧ w = ⟨b, budgetSpent db uid month b,
               max 0 (b.amount - budgetSpent db uid month b),
               percentUsed db uid month b,
               if 100 ≤ percentUsed db uid month b then "high"
               else if 90 ≤ percentUsed db uid month b then "medium"
               else "low"⟩ := by
  unfold check_budget_status
  rw [List.mem_filterMap]
  constructor
  · rintro ⟨b, hb, hsome⟩
    dsimp only at hsome
    split_ifs at hsome with h1 h2 h3 <;> simp only [Option.some.injEq] at hsome
    · exact ⟨b, hb, by linarith, by rw [← hsome, if_pos h1]⟩
    · exact ⟨b, hb, by linarith, by rw [← hsome, if_neg h1, if_pos h2]⟩
    · exact ⟨b, hb, h3, by rw [← hsome, if_neg h1, if_neg h2]⟩
  · rintro ⟨b, hb, h75, rfl⟩
    refine ⟨b, hb, ?_⟩
    dsimp only
    split_ifs with h1 h2
    · rfl
    · rfl
    · rfl

theorem warnings_map_budget (db : DB) (uid month : String) (L : List Budget) :
    (L.filterMap (fun b =>
      let spent := budgetSpent db uid month b
      let remaining := max 0 (b.amount - spent)
      let pu := percentUsed db uid month b
      if 100 ≤ pu then some (⟨b, spent, remaining, pu, "high"⟩ : BudgetWarning)
      else if 90 ≤ pu then some ⟨b, spent, remaining, pu, "medium"⟩
      else if 75 ≤ pu then some ⟨b, spent, remaining, pu, "low"⟩
      else none)).map (·.budget)
    = L.filter (fun b => 75 ≤ percentUsed db uid month b) := by
  induction L with
  | nil => rfl
  | cons b rest ih =>
    by_cases h1 : 100 ≤ percentUsed db uid month b
    · have h75 : (75 : ℚ) ≤ percentUsed db uid month b := by linarith
      simp [List.filterMap_cons, List.filter_cons, h1, h75, ih]
    · by_cases h2 : 90 ≤ percentUsed db uid month b
      · have h75 : (75 : ℚ) ≤ percentUsed db uid month b := by linarith
        simp [List.filterMap_cons, List.filter_cons, h1, h2, h75, ih]
      · by_cases h3 : 75 ≤ percentUsed db uid month b
        · simp [List.filterMap_cons, List.filter_cons, h1, h2, h3, ih]
        · simp [List.filterMap_cons, List.filter_cons, h1, h2, h3, ih]

/-- Claim C8: `check_budget_status` warns exactly on the budgets whose
`percent_used` is at least 75, with severity "high" iff it is at least 100,
"medium" iff it is in [90, 100), "low" iff it is in [75, 90); a budget whose
amount is not positive gets `percent_used` 0 (the division is guarded), so
every warned budget has positive amount. -/
theorem C8_warning_threshold (db : DB) (uid month : String) :
    ((check_budget_status db uid month).map (·.budget)
      = (db.budgets.filter (fun b => b.user_id == uid)).filter
          (fun b => 75 ≤ percentUsed db uid month b))
    ∧ (∀ w ∈ check_budget_status db uid month,
        w.percent_used = percentUsed db uid month w.budget
        ∧ 75 ≤ w.percent_used
        ∧ 0 < w.budget.amount
        ∧ (w.severity = "high" ↔ 100 ≤ w.percent_used)
        ∧ (w.severity = "medium" ↔ 90 ≤ w.percent_used ∧ w.percent_used < 100)
        ∧ (w.severity = "low" ↔ 75 ≤ w.percent_used ∧ w.percent_used < 90))
    ∧ (∀ b : Budget, b.amount ≤ 0 → percentUsed db uid month b = 0) := by
  refine ⟨warnings_map_budget db uid month _, ?_, ?_⟩
  · intro w hw
    obtain ⟨b, hb, h75, rfl⟩ := (mem_check_budget_status db uid month w).1 hw
    have hpos : 0 < b.amount := by
      by_contra hN
      rw [percentUsed_nonpos db uid month b hN] at h75
      linarith
    refine ⟨rfl, h75, hpos, ?_, ?_, ?_⟩
    · show (if 100 ≤ percentUsed db uid month b then "high"
            else if 90 ≤ percentUsed db uid month b then "medium" else "low") = "high"
          ↔ 100 ≤ percentUsed db uid month b
      by_cases h1 : 100 ≤ percentUsed db uid month b
      · rw [if_pos h1]
        exact iff_of_true rfl h1
      · rw [if_neg h1]
        by_cases h2 : 90 ≤ percentUsed db uid month b
        · rw [if_pos h2]
          exact iff_of_false (by decide) h1
        · rw [if_neg h2]
          exact iff_of_false (by decide) h1
    · show (if 100 ≤ percentUsed db uid month b then "high"
            else if 90 ≤ percentUsed db uid month b then "medium" else "low") = "medium"
          ↔ (90 ≤ percentUsed db uid month b ∧ percentUsed db uid month b < 100)
      by_cases h1 : 100 ≤ percentUsed db uid month b
      · rw [if_pos h1]
        exact iff_of_false (by decide) (fun hc => absurd h1 (not_le.mpr hc.2))
      · rw [if_neg h1]
        by_cases h2 : 90 ≤ percentUsed db uid month b
        · rw [if_pos h2]
          exact iff_of_true rfl ⟨h2, lt_of_not_le h1⟩
        · rw [if_neg h2]
          exact iff_of_false (by decide) (fun hc => absurd hc.1 h2)
    · show (if 100 ≤ percentUsed db uid month b then "high"
            else if 90 ≤ percentUsed db uid month b then "medium" else "low") = "low"
          ↔ (75 ≤ percentUsed db uid month b ∧ percentUsed db uid month b < 90)
      by_cases h1 : 100 ≤ percentUsed db uid month b
      · rw [if_pos h1]
        exact iff_of_false (by decide)
          (fun hc => absurd h1 (not_le.mpr (lt_of_lt_of_le hc.2 (by norm_num))))
      · rw [if_neg h1]
        by_cases h2 : 90 ≤ percentUsed db uid month b
        · rw [if_pos h2]
          exact iff_of_false (by decide) (fun hc => absurd h2 (not_le.mpr hc.2))
        · rw [if_neg h2]
          exact iff_of_true rfl ⟨h75, lt_of_not_le h2⟩
  · intro b hb
    exact percentUsed_nonpos db uid month b (by linarith)

/-- Witness for C8: the guarded zero-amount case and the severity of the
concrete 80-percent warning. -/
theorem C8_warning_threshold_witness :
    percentUsed wdbBudget "u" "2024-05" zeroBudget = 0
    ∧ (wWarning.severity = "low"
        ↔ (75 ≤ wWarning.percent_used ∧ wWarning.percent_used < 90)) :=
  ⟨(C8_warning_threshold wdbBudget "u" "2024-05").2.2 zeroBudget (le_refl 0),
   ((C8_warning_threshold wdbBudget "u" "2024-05").2.1 wWarning (by
      with_unfolding_all decide)).2.2.2.2.2⟩

theorem runPhases_ok (r : Option Nat) (ps : List (DB → DB)) :
    ∀ (k : Nat) (w w2 : DB), runPhases r k ps w = .ok w2 →
      w2 = ps.foldl (fun d f => f d) w := by
  induction ps with
  | nil =>
    intro k w w2 h
    unfold runPhases at h
    split_ifs at h
    rw [List.foldl_nil]
    exact (Except.ok.inj h).symm
  | cons f rest ih =>
    intro k w w2 h
    unfold runPhases at h
    split_ifs at h
    rw [List.foldl_cons]
    exact ih (k + 1) (f w) w2 h

theorem runPhases_raises (r : Option Nat) (ps : List (DB → DB)) :
    ∀ (k j : Nat) (w : DB), r = some j → k ≤ j → j ≤ k + ps.length →
      runPhases r k ps w = .error () := by
  induction ps with
  | nil =>
    intro k j w hr hkj hjk
    subst hr
    have hj : j = k := le_antisymm (by simpa using hjk) hkj
    subst hj
    unfold runPhases
    rw [if_pos (by simp)]
  | cons f rest ih =>
    intro k j w hr hkj hjk
    subst hr
    unfold runPhases
    by_cases hk : j = k
    · subst hk
      rw [if_pos (by simp)]
    · rw [if_neg (by simp [hk])]
      exact ih (k + 1) j (f w) rfl (by omega)
        (by simp only [List.length_cons] at hjk; omega)

/-- After the five delete phases, no row of the user remains: all of the
user's analyses, transactions, goals and budgets are gone, and so is every
vector transaction referencing one of the user's (original) transactions. -/
theorem reset_final_state_clean (db : DB) (uid : String) :
    (∀ a ∈ (delUserBudgets (delUserGoals (delUserTransactions (delUserAnalyses
        (delUserVectorTxns db uid) uid) uid) uid) uid).analyses, a.user_id ≠ uid)
    ∧ (∀ t ∈ (delUserBudgets (delUserGoals (delUserTransactions (delUserAnalyses
        (delUserVectorTxns db uid) uid) uid) uid) uid).transactions, t.user_id ≠ uid)
    ∧ (∀ g ∈ (delUserBudgets (delUserGoals (delUserTransactions (delUserAnalyses
        (delUserVectorTxns db uid) uid) uid) uid) uid).goals, g.user_id ≠ uid)
    ∧ (∀ b ∈ (delUserBudgets (delUserGoals (delUserTransactions (delUserAnalyses
        (delUserVectorTxns db uid) uid) uid) uid) uid).budgets, b.user_id ≠ uid)
    ∧ (∀ v ∈ (delUserBudgets (delUserGoals (delUserTransactions (delUserAnalyses
        (delUserVectorTxns db uid) uid) uid) uid) uid).vector_txns,
        ∀ t ∈ db.transactions, t.id = v.transaction_id → t.user_id ≠ uid) := by
  refine ⟨?_, ?_, ?_, ?_, ?_⟩
  · intro a ha
    simp [delUserBudgets, delUserGoals, delUserTransactions, delUserAnalyses,
      delUserVectorTxns, List.mem_filter] at ha
    exact ha.2
  · intro t ht
    simp [delUserBudgets, delUserGoals, delUserTransactions, delUserAnalyses,
      delUserVectorTxns, List.mem_filter] at ht
    exact ht.2
  · intro g hg
    simp [delUserBudgets, delUserGoals, delUserTransactions, delUserAnalyses,
      delUserVectorTxns, List.mem_filter] at hg
    exact hg.2
  · intro b hb
    simp [delUserBudgets, delUserGoals, delUserTransactions, delUserAnalyses,
      delUserVectorTxns, List.mem_filter] at hb
    exact hb.2
  · intro v hv t ht hid huid
    simp [delUserBudgets, delUserGoals, delUserTransactions, delUserAnalyses,
      delUserVectorTxns, List.mem_filter] at hv
    exact hv.2 t ht hid huid

/-- In a concatenation whose head part has no transaction rows and whose tail
part has no vector rows, every vector-row index precedes every
transaction-row index. -/
theorem trace_order_aux (Vm Zm : List DeletedRow)
    (hZnoV : ∀ r ∈ Zm, isVtxnRow r = false)
    (hVnoT : ∀ r ∈ Vm, isTxnRow r = false)
    (i j : Nat) (hi : i < (Vm ++ Zm).length) (hj : j < (Vm ++ Zm).length)
    (hvi : isVtxnRow ((Vm ++ Zm).get ⟨i, hi⟩) = true)
    (htj : isTxnRow ((Vm ++ Zm).get ⟨j, hj⟩) = true) : i < j := by
  rw [List.get_eq_getElem] at hvi htj
  have hiV : i < Vm.length := by
    by_contra hge
    rw [List.getElem_append_right (Nat.le_of_not_lt hge)] at hvi
    rw [hZnoV _ (List.getElem_mem _)] at hvi
    exact Bool.false_ne_true hvi
  have hjV : Vm.length ≤ j := by
    by_contra hlt
    rw [List.getElem_append_left (Nat.lt_of_not_le hlt)] at htj
    rw [hVnoT _ (List.getElem_mem _)] at htj
    exact Bool.false_ne_true htj
  omega

/-- Claim C3: `reset_user_data` deletes child rows before parents: in the
trace of issued deletes, every `VectorTransaction` delete precedes every
`Transaction` delete, and on the happy path the function returns `True` with
all of the user's analyses, transactions, goals, budgets and (referencing)
vector transactions deleted. -/
theorem C3_children_before_parents (db : DB) (uid : String) :
    (∀ (i j : Nat) (hi : i < (reset_delete_trace db uid).length)
        (hj : j < (reset_delete_trace db uid).length),
        isVtxnRow ((reset_delete_trace db uid).get ⟨i, hi⟩) = true →
        isTxnRow ((reset_delete_trace db uid).get ⟨j, hj⟩) = true → i < j)
    ∧ (reset_user_data db uid none).2 = true
    ∧ (∀ a ∈ (reset_user_data db uid none).1.analyses, a.user_id ≠ uid)
    ∧ (∀ t ∈ (reset_user_data db uid none).1.transactions, t.user_id ≠ uid)
    ∧ (∀ g ∈ (reset_user_data db uid none).1.goals, g.user_id ≠ uid)
    ∧ (∀ b ∈ (reset_user_data db uid none).1.budgets, b.user_id ≠ uid)
    ∧ (∀ v ∈ (reset_user_data db uid none).1.vector_txns,
        ∀ t ∈ db.transactions, t.id = v.transaction_id → t.user_id ≠ uid) := by
  have hok : reset_user_data db uid none
      = (delUserBudgets (delUserGoals (delUserTransactions (delUserAnalyses
          (delUserVectorTxns db uid) uid) uid) uid) uid, true) := rfl
  have hclean := reset_final_state_clean db uid
  refine ⟨?_, by rw [hok], ?_, ?_, ?_, ?_, ?_⟩
  · intro i j hi hj hvi htj
    have hZnoV : ∀ r ∈ ((db.analyses.filter (fun a => a.user_id == uid)).map DeletedRow.analysis
        ++ ((db.transactions.filter (fun t => t.user_id == uid)).map DeletedRow.txn
        ++ ((db.goals.filter (fun g => g.user_id == uid)).map DeletedRow.goal
        ++ (db.budgets.filter (fun b => b.user_id == uid)).map DeletedRow.budget))),
        isVtxnRow r = false := by
      intro r hr
      simp only [List.mem_append, List.mem_map] at hr
      rcases hr with ⟨a, _, rfl⟩ | ⟨t, _, rfl⟩ | ⟨g, _, rfl⟩ | ⟨b, _, rfl⟩ <;> rfl
    have hVnoT : ∀ r ∈ (db.vector_txns.filter (fun v =>
        db.transactions.any (fun t => t.id == v.transaction_id && t.user_id == uid))).map
          DeletedRow.vtxn, isTxnRow r = false := by
      intro r hr
      simp only [List.mem_map] at hr
      obtain ⟨v, _, rfl⟩ := hr
      rfl
    exact trace_order_aux _ _ hZnoV hVnoT i j hi hj hvi htj
  · rw [hok]
    exact hclean.1
  · rw [hok]
    exact hclean.2.1
  · rw [hok]
    exact hclean.2.2.1
  · rw [hok]
    exact hclean.2.2.2.1
  · rw [hok]
    exact hclean.2.2.2.2

/-- Witness for C3 on a concrete two-user state: the reset succeeds and the
ordering theorem instantiates at the vector delete (index 0) and the
transaction delete (index 2). -/
theorem C3_children_before_parents_witness :
    (0 : Nat) < 2
    ∧ (reset_user_data wdbReset "u" none).2 = true
    ∧ (reset_delete_trace wdbReset "u").length = 5 :=
  ⟨(C3_children_before_parents wdbReset "u").1 0 2 (by decide) (by decide)
      (by decide) (by decide),
   (C3_children_before_parents wdbReset "u").2.1, by decide⟩

/-- Claim C9: `reset_user_data` is atomic under the step fault model: an
exception at any step (the five delete phases or the commit) rolls the session
back, returns `False` and leaves the database unchanged; it returns `True`
exactly on the fault-free run, and whenever it returns `True` every row of the
user has been deleted. -/
theorem C9_reset_atomic (db : DB) (uid : String) (raiseAt : Option Nat) :
    (∀ k, raiseAt = some k → k ≤ 5 → reset_user_data db uid raiseAt = (db, false))
    ∧ ((reset_user_data db uid raiseAt).2 = true →
        (∀ a ∈ (reset_user_data db uid raiseAt).1.analyses, a.user_id ≠ uid)
        ∧ (∀ t ∈ (reset_user_data db uid raiseAt).1.transactions, t.user_id ≠ uid)
        ∧ (∀ g ∈ (reset_user_data db uid raiseAt).1.goals, g.user_id ≠ uid)
        ∧ (∀ b ∈ (reset_user_data db uid raiseAt).1.budgets, b.user_id ≠ uid)
        ∧ (∀ v ∈ (reset_user_data db uid raiseAt).1.vector_txns,
            ∀ t ∈ db.transactions, t.id = v.transaction_id → t.user_id ≠ uid))
    ∧ (raiseAt = none → (reset_user_data db uid raiseAt).2 = true)
    ∧ ((reset_user_data db uid raiseAt).2 = false →
        (reset_user_data db uid raiseAt).1 = db) := by
  refine ⟨?_, ?_, ?_, ?_⟩
  · intro k hk hk5
    subst hk
    unfold reset_user_data
    rw [runPhases_raises (some k) (resetPhases uid) 0 k db rfl (Nat.zero_le k)
      (by simp [resetPhases]; omega)]
  · intro h2
    unfold reset_user_data at h2 ⊢
    cases hrun : runPhases raiseAt 0 (resetPhases uid) db with
    | error u =>
      rw [hrun] at h2
      exact Bool.noConfusion h2
    | ok w =>
      have hw := runPhases_ok raiseAt (resetPhases uid) 0 db w hrun
      have hfold : (resetPhases uid).foldl (fun d f => f d) db
          = delUserBudgets (delUserGoals (delUserTransactions (delUserAnalyses
              (delUserVectorTxns db uid) uid) uid) uid) uid := rfl
      rw [hfold] at hw
      subst hw
      exact reset_final_state_clean db uid
  · intro h
    subst h
    rfl
  · intro hf
    unfold reset_user_data at hf ⊢
    cases hrun : runPhases raiseAt 0 (resetPhases uid) db with
    | error u =>
      rfl
    | ok w =>
      rw [hrun] at hf
      exact Bool.noConfusion hf

/-- Witness for C9: a fault at step 2 leaves the concrete state unchanged and
returns False; the fault-free run returns True. -/
theorem C9_reset_atomic_witness :
    reset_user_data wdbReset "u" (some 2) = (wdbReset, false)
    ∧ (reset_user_data wdbReset "u" none).2 = true :=
  ⟨(C9_reset_atomic wdbReset "u" (some 2)).1 2 rfl (by omega),
   (C9_reset_atomic wdbReset "u" none).2.2.1 rfl⟩

theorem sorted_amount_avg (g : List TxnD) :
    ((sortByDate g).map (·.amount)).sum / (((sortByDate g).map (·.amount)).length : ℚ)
      = (g.map (·.amount)).sum / (g.length : ℚ) := by
  have hperm : List.Perm (sortByDate g) g := List.perm_insertionSort dateLE g
  have hmap : List.Perm ((sortByDate g).map (·.amount)) (g.map (·.amount)) :=
    hperm.map _
  rw [hmap.sum_eq, hmap.length_eq, List.length_map]

/-- What a produced group prediction looks like: the group occurs at least
twice, at least two of its dates parse, the average consecutive gap of the
parsed dates is in [25, 35], the amount is the mean of the group's amounts,
the predicted date is the last parsed date plus 30 days and lies strictly
after today, the confidence is 0.6, and description/category/type come from
the group's first transaction. -/
theorem groupPrediction_some (today : Nat) (g : List TxnD) (p : Prediction)
    (h : groupPrediction today g = some p) :
    2 ≤ g.length
    ∧ 2 ≤ (parsedDates g).length
    ∧ 25 ≤ avgGap (parsedDates g) ∧ avgGap (parsedDates g) ≤ 35
    ∧ p.amount = (g.map (·.amount)).sum / (g.length : ℚ)
    ∧ p.predicted_date = strftimeYmd ((parsedDates g).getLastD 0 + 30)
    ∧ today < (parsedDates g).getLastD 0 + 30
    ∧ p.confidence = 6/10
    ∧ ∃ t0, g.head? = some t0 ∧ p.description = t0.description
        ∧ p.category = t0.category ∧ p.type = t0.type := by
  cases g with
  | nil => exact Option.noConfusion h
  | cons t0 rest =>
    unfold groupPrediction at h
    dsimp only at h
    split_ifs at h with h1 h2 h3 h4
    have hp := (Option.some.inj h).symm
    subst hp
    exact ⟨h1, h2, h3.1, h3.2, sorted_amount_avg (t0 :: rest), rfl, h4, rfl,
      t0, rfl, rfl, rfl, rfl⟩

/-- Counterexample to claim C4 as stated: with a raising AI call, the fallback
produces a prediction although no two of the user's transactions share a
description (nor a category): grouping is by the concatenated string key, and
the two transactions ("a-b", category "c") and ("a", category "b-c") collide
on the key "a-b-c-expense". -/
theorem C4_counterexample :
    (predict_transactions cexDB (some "u") wFailAI (toSerialDay 2024 2 1)).length = 1
    ∧ List.Pairwise (fun a b => a.description ≠ b.description ∧ a.category ≠ b.category)
        cexDB.transactions := by
  constructor
  · with_unfolding_all decide
  · with_unfolding_all decide

/-- Claim C4 (amended): when the AI prediction call raises (and a truthy user
is set), `predict_transactions` falls back to the rule-based heuristic: it
predicts only from groups of transactions sharing the concatenated key
(lowercased description, category, type, joined with "-") that occur at least
twice and have at least two parseable dates whose average consecutive day-gap
in date-string order is between 25 and 35 inclusive; each prediction has
amount the arithmetic mean of the group's amounts, predicted date the group's
last parsed date plus 30 days, strictly after today, confidence 0.6, and the
returned list is sorted ascending by predicted date. -/
theorem C4_fallback_properties (db : DB) (uid : String)
    (ai : List TxnD → Except String (List Prediction)) (today : Nat) (e : String)
    (hu : uid.isEmpty = false)
    (hai : ai (userTxnDicts db uid) = .error e) :
    (∀ p ∈ predict_transactions db (some uid) ai today,
      p.confidence = 6/10
      ∧ ∃ k ∈ firstOccKeys (userTxnDicts db uid),
          2 ≤ (keyGroup (userTxnDicts db uid) k).length
          ∧ 2 ≤ (parsedDates (keyGroup (userTxnDicts db uid) k)).length
          ∧ 25 ≤ avgGap (parsedDates (keyGroup (userTxnDicts db uid) k))
          ∧ avgGap (parsedDates (keyGroup (userTxnDicts db uid) k)) ≤ 35
          ∧ p.amount = ((keyGroup (userTxnDicts db uid) k).map (·.amount)).sum
              / ((keyGroup (userTxnDicts db uid) k).length : ℚ)
          ∧ p.predicted_date
              = strftimeYmd ((parsedDates (keyGroup (userTxnDicts db uid) k)).getLastD 0 + 30)
          ∧ today < (parsedDates (keyGroup (userTxnDicts db uid) k)).getLastD 0 + 30
          ∧ ∃ t0, (keyGroup (userTxnDicts db uid) k).head? = some t0
              ∧ p.description = t0.description ∧ p.category = t0.category
              ∧ p.type = t0.type)
    ∧ List.Sorted predLE (predict_transactions db (some uid) ai today) := by
  have hpt : predict_transactions db (some uid) ai today
      = predictFallback today (userTxnDicts db uid) := by
    unfold predict_transactions
    dsimp only
    rw [if_neg (by simp [hu]), hai]
  constructor
  · intro p hp
    rw [hpt] at hp
    simp only [predictFallback] at hp
    rw [(List.perm_insertionSort predLE _).mem_iff] at hp
    obtain ⟨k, hk, hgp⟩ := List.mem_filterMap.1 hp
    obtain ⟨hlen, hdates, hlo, hhi, hamt, hdate, htoday, hconf, t0, hhead, hdesc, hcat, htype⟩ :=
      groupPrediction_some today _ p hgp
    exact ⟨hconf, k, hk, hlen, hdates, hlo, hhi, hamt, hdate, htoday,
      t0, hhead, hdesc, hcat, htype⟩
  · rw [hpt]
    exact List.sorted_insertionSort predLE _

/-- Witness for C4 (amended): on the concrete recurring pair the fallback
yields exactly one prediction (mean amount 15, date 30 days after the last
occurrence), and the theorem gives its sortedness. -/
theorem C4_fallback_properties_witness :
    predict_transactions wdbPred (some "u") wFailAI (toSerialDay 2024 2 20) = [wPrediction]
    ∧ List.Sorted predLE
        (predict_transactions wdbPred (some "u") wFailAI (toSerialDay 2024 2 20)) :=
  ⟨by with_unfolding_all decide,
   (C4_fallback_properties wdbPred "u" wFailAI (toSerialDay 2024 2 20)
      "RateLimitError" rfl rfl).2⟩

end AFT
